import Mathlib

/-!
# Verification of the aki-nav workers

Shallow embedding of the request-handling logic of `workers_v1.01.09.js`
(bookmark manager: route matcher, session auth, login/logout, reorder) and
`nav-kv/v1.0.1/worker.js` (cloud notes worker), together with theorems about
the embedded definitions.

Strings are modelled at the character-list level (`List Char`) so that every
operation (split, trim, pattern matching) is executable by structural
recursion and evaluable by `decide`.
-/

namespace AkiNav

/-- Character list of a string literal. -/
def str (s : String) : List Char := s.data

/-- JS `String.prototype.split(sep)` for a one-character separator:
splitting never drops empty pieces, and the empty string yields `[""]`. -/
def splitOnChar (sep : Char) : List Char → List (List Char)
  | [] => [[]]
  | c :: cs =>
    let rest := splitOnChar sep cs
    if c = sep then [] :: rest
    else
      match rest with
      | [] => [[c]]
      | g :: gs => (c :: g) :: gs

/-- JS `String.prototype.trim()`: drop leading and trailing whitespace. -/
def trimChars (s : List Char) : List Char :=
  ((s.dropWhile Char.isWhitespace).reverse.dropWhile Char.isWhitespace).reverse

/-- A compiled token of a protected-route path pattern: a literal character,
or the `\d+` marker (one or more ASCII digits). -/
inductive Tok where
  | lit (c : Char)
  | digits
deriving DecidableEq

/-- Compile a route-path pattern string into tokens: each occurrence of the
three-character marker `\d+` becomes `Tok.digits`, every other character is
literal.  This mirrors the regex `new RegExp('^' + routePath + '$')` built in
`api.handleRequest`, where `/` is escaped to the literal `\/` and `\d+` kept. -/
def toks : List Char → List Tok
  | '\\' :: 'd' :: '+' :: rest => Tok.digits :: toks rest
  | c :: rest => Tok.lit c :: toks rest
  | [] => []

/-- JS `routePath.includes('\\d+')`: does the pattern contain the marker? -/
def hasDigitTok : List Char → Bool
  | '\\' :: 'd' :: '+' :: _ => true
  | _ :: rest => hasDigitTok rest
  | [] => false

/-- Anchored (full-string) matching of a token list against a path, the
semantics of `regex.test(path)` for the anchored regex `^...$`:
`Tok.digits` consumes one or more ASCII digits. -/
def matchToks : List Tok → List Char → Bool
  | [], [] => true
  | [], _ :: _ => false
  | Tok.lit _ :: _, [] => false
  | Tok.lit c :: ts, x :: xs => c == x && matchToks ts xs
  | Tok.digits :: _, [] => false
  | Tok.digits :: ts, x :: xs =>
      x.isDigit && (matchToks ts xs || matchToks (Tok.digits :: ts) xs)

/-- Declarative matching relation: the path decomposes into the pattern's
literal characters and, for each `digits` token, a nonempty run of ASCII
digits.  Anchored at both ends by construction (the whole path is consumed). -/
inductive TokMatch : List Tok → List Char → Prop where
  | nil : TokMatch [] []
  | lit {c : Char} {ts : List Tok} {s : List Char} :
      TokMatch ts s → TokMatch (Tok.lit c :: ts) (c :: s)
  | digits {ds : List Char} {ts : List Tok} {s : List Char} :
      ds ≠ [] → (∀ c ∈ ds, c.isDigit = true) → TokMatch ts s →
      TokMatch (Tok.digits :: ts) (ds ++ s)

theorem tokMatch_nil_right {s : List Char} (h : TokMatch [] s) : s = [] := by
  cases h; rfl

theorem tokMatch_cons_digit {ts : List Tok} {s : List Char} {x : Char}
    (hx : x.isDigit = true) (h : TokMatch (Tok.digits :: ts) s) :
    TokMatch (Tok.digits :: ts) (x :: s) := by
  cases h with
  | digits hne hd hm =>
    rename_i ds s2
    have h2 : TokMatch (Tok.digits :: ts) ((x :: ds) ++ s2) :=
      TokMatch.digits (List.cons_ne_nil _ _)
        (by
          intro c hc
          rcases List.mem_cons.mp hc with rfl | hc
          · exact hx
          · exact hd c hc) hm
    simpa using h2

theorem matchToks_sound : ∀ (s : List Char) (ts : List Tok),
    matchToks ts s = true → TokMatch ts s := by
  intro s
  induction s with
  | nil =>
    intro ts h
    match ts with
    | [] => exact TokMatch.nil
    | Tok.lit _ :: _ => simp [matchToks] at h
    | Tok.digits :: _ => simp [matchToks] at h
  | cons x xs ih =>
    intro ts h
    match ts with
    | [] => simp [matchToks] at h
    | Tok.lit c :: ts' =>
      simp only [matchToks, Bool.and_eq_true, beq_iff_eq] at h
      obtain ⟨rfl, hm⟩ := h
      exact TokMatch.lit (ih ts' hm)
    | Tok.digits :: ts' =>
      simp only [matchToks, Bool.and_eq_true, Bool.or_eq_true] at h
      obtain ⟨hx, hm | hm⟩ := h
      · have : TokMatch (Tok.digits :: ts') ([x] ++ xs) :=
          TokMatch.digits (by simp) (by simpa using hx) (ih ts' hm)
        simpa using this
      · exact tokMatch_cons_digit hx (ih (Tok.digits :: ts') hm)

theorem matchToks_digits_append {ts : List Tok} {s : List Char}
    (ds : List Char) (hne : ds ≠ []) (hd : ∀ c ∈ ds, c.isDigit = true)
    (h : matchToks ts s = true) :
    matchToks (Tok.digits :: ts) (ds ++ s) = true := by
  induction ds with
  | nil => exact absurd rfl hne
  | cons d ds' ih =>
    have hdd : d.isDigit = true := hd d (by simp)
    match ds' with
    | [] =>
      show (d.isDigit && (matchToks ts s || matchToks (Tok.digits :: ts) s)) = true
      simp [hdd, h]
    | d2 :: ds'' =>
      have hrest := ih (by simp) (fun c hc => hd c (List.mem_cons_of_mem _ hc))
      simp only [List.cons_append] at hrest
      show (d.isDigit &&
        (matchToks ts (d2 :: (ds'' ++ s)) ||
          matchToks (Tok.digits :: ts) (d2 :: (ds'' ++ s)))) = true
      simp [hdd, hrest]

theorem matchToks_complete {ts : List Tok} {s : List Char}
    (h : TokMatch ts s) : matchToks ts s = true := by
  induction h with
  | nil => rfl
  | lit _ ih => simp [matchToks, ih]
  | digits hne hd _ ih => exact matchToks_digits_append _ hne hd ih

theorem matchToks_iff {ts : List Tok} {s : List Char} :
    matchToks ts s = true ↔ TokMatch ts s :=
  ⟨matchToks_sound s ts, matchToks_complete⟩

/-- A pattern made of literals followed by one `\d+` matches exactly the
paths `pre ++ ds` for a nonempty all-digit `ds`. -/
theorem tokMatch_lits_digits (pre : List Char) :
    ∀ path : List Char,
      (TokMatch (pre.map Tok.lit ++ [Tok.digits]) path ↔
        ∃ ds, ds ≠ [] ∧ (∀ c ∈ ds, c.isDigit = true) ∧ path = pre ++ ds) := by
  induction pre with
  | nil =>
    intro path
    constructor
    · intro h
      simp only [List.map_nil, List.nil_append] at h
      cases h with
      | digits hne hd hm =>
        have hs := tokMatch_nil_right hm
        subst hs
        exact ⟨_, hne, hd, by simp⟩
    · rintro ⟨ds, hne, hd, heq⟩
      have h2 : TokMatch [Tok.digits] (ds ++ []) := TokMatch.digits hne hd TokMatch.nil
      simpa [heq] using h2
  | cons c pre' ih =>
    intro path
    constructor
    · intro h
      simp only [List.map_cons, List.cons_append] at h
      cases h with
      | lit hm =>
        obtain ⟨ds, hne, hd, rfl⟩ := (ih _).mp hm
        exact ⟨ds, hne, hd, rfl⟩
    · rintro ⟨ds, hne, hd, rfl⟩
      simp only [List.map_cons, List.cons_append]
      exact TokMatch.lit ((ih _).mpr ⟨ds, hne, hd, rfl⟩)

/-! ## Route matcher (`api.handleRequest`, protected-route classification) -/

/-- The protected-route allowlist of `api.handleRequest`, verbatim from the
source (`'METHOD /path'` strings, `\d+` marking a numeric-id segment). -/
def protectedRoutes : List (List Char) :=
  [str "POST /settings",
   str "POST /catalogs",
   str "PUT /catalogs",
   str "DELETE /catalogs",
   str "POST /catalogs/reorder",
   str "POST /catalogs/migrate",
   str "PUT /catalogs/\\d+/toggle_privacy",
   str "POST /config",
   str "POST /config/reorder",
   str "DELETE /config/all",
   str "PUT /config/\\d+",
   str "DELETE /config/\\d+",
   str "PUT /config/\\d+/toggle_privacy",
   str "PUT /pending/\\d+",
   str "DELETE /pending/\\d+",
   str "POST /config/import",
   str "GET /config/export",
   str "GET /pending",
   str "GET /catalogs/export",
   str "POST /catalogs/import",
   str "GET /private"]

/-- `const [routeMethod, routePath] = route.split(' ')`. -/
def routeParts (r : List Char) : List Char × List Char :=
  match splitOnChar ' ' r with
  | [] => ([], [])
  | [m] => (m, [])
  | m :: p :: _ => (m, p)

/-- One entry of the `protectedRoutes.some(...)` predicate: the method must
be strictly equal, then either anchored regex matching (when the pattern
contains `\d+`) or exact string equality. -/
def routeIsMatch (route method path : List Char) : Bool :=
  if (routeParts route).1 ≠ method then false
  else if hasDigitTok (routeParts route).2 then matchToks (toks (routeParts route).2) path
  else (routeParts route).2 == path

/-- `isProtected`: does some protected-route entry match method and path? -/
def isProtectedRoute (method path : List Char) : Bool :=
  protectedRoutes.any fun route => routeIsMatch route method path

/-- Declarative reading of `routeIsMatch`: equal method, and the path
matches the full pattern (declarative `TokMatch` for wildcard patterns,
equality for exact ones). -/
def RouteMatches (route method path : List Char) : Prop :=
  (routeParts route).1 = method ∧
  ((hasDigitTok (routeParts route).2 = true ∧ TokMatch (toks (routeParts route).2) path) ∨
   (hasDigitTok (routeParts route).2 = false ∧ (routeParts route).2 = path))

theorem routeIsMatch_iff {route method path : List Char} :
    routeIsMatch route method path = true ↔ RouteMatches route method path := by
  unfold routeIsMatch RouteMatches
  by_cases h1 : (routeParts route).1 = method
  · by_cases h2 : hasDigitTok (routeParts route).2 = true
    · simp [h1, h2, matchToks_iff]
    · simp [h1, h2, Bool.not_eq_true _ ▸ h2]
  · simp [h1]

/-! ## Cookie parsing and auth check (`admin.checkAuth`) -/

/-- One `cookie.trim().split('=')` destructured as `const [key, value]`:
the key is the part before the first `=`; the value is element 1 of the
split, i.e. the part between the first and the second `=` (JS `split('=')`
splits at every `=`), and `none` (JS `undefined`) when there is no `=`. -/
def splitPair (c : List Char) : List Char × Option (List Char) :=
  match splitOnChar '=' (trimChars c) with
  | [] => ([], none)
  | [k] => (k, none)
  | k :: v :: _ => (k, some v)

/-- `cookieHeader.split(';')` followed by the per-cookie destructuring. -/
def parseCookiePairs (h : List Char) : List (List Char × Option (List Char)) :=
  (splitOnChar ';' h).map splitPair

/-- Lookup in the object accumulated by `reduce`: every pair assigns
`acc[key] = value`, so the last assignment to a key wins; a key assigned
`undefined` is indistinguishable from an absent key at the use sites. -/
def lookupCookie (pairs : List (List Char × Option (List Char))) (k : List Char) :
    Option (List Char) :=
  pairs.foldl (fun acc p => if p.1 = k then p.2 else acc) none

/-- Result of one key-value-store read (`env.NAV_AUTH.get`): a present
value, absence (`null`), or a thrown error. -/
inductive KVRead where
  | ok (v : Option (List Char))
  | err
deriving DecidableEq

/-- `admin.checkAuth` over an arbitrary read behaviour `get` of the store:
no `Cookie` header → `false`; missing (or empty, hence JS-falsy) `sessionId`
cookie → `false`; a throwing read is caught by the surrounding `try` →
`false`; otherwise `true` iff the stored value is exactly `"valid"`. -/
def checkAuth (get : List Char → KVRead) (cookieHeader : Option (List Char)) : Bool :=
  match cookieHeader with
  | none => false
  | some h =>
    match lookupCookie (parseCookiePairs h) (str "sessionId") with
    | none => false
    | some sid =>
      if sid = [] then false
      else
        match get (str "session:" ++ sid) with
        | KVRead.err => false
        | KVRead.ok v => v == some (str "valid")

/-! ## Session store state, login (`admin.handleLogin`) and logout
(`admin.handleLogout`) -/

/-- A stored entry of the `NAV_AUTH` store: the value together with the
`expirationTtl` supplied at write time (if any). -/
structure KVEntry where
  value : List Char
  expirationTtl : Option Nat
deriving DecidableEq

/-- State of the `NAV_AUTH` key-value store. -/
def KVState := List Char → Option KVEntry

/-- Reads over a concrete store state: never throw, return the stored
string value or `null`. -/
def getOf (st : KVState) : List Char → KVRead :=
  fun k => KVRead.ok ((st k).map KVEntry.value)

/-- `env.NAV_AUTH.put(k, value, { expirationTtl })`. -/
def putKV (st : KVState) (k : List Char) (e : KVEntry) : KVState :=
  fun k2 => if k2 = k then some e else st k2

/-- `env.NAV_AUTH.delete(k)` (idempotent on the state). -/
def delKV (st : KVState) (k : List Char) : KVState :=
  fun k2 => if k2 = k then none else st k2

/-- `` `session:${sessionId}` ``. -/
def sessionKey (sid : List Char) : List Char := str "session:" ++ sid

/-- The configured admin credentials (stored under `admin_username` /
`admin_password`). -/
structure AuthConfig where
  admin_username : List Char
  admin_password : List Char

/-- Parsed JSON body of a login request. -/
structure LoginReq where
  username : List Char
  password : List Char
  remember : Bool

/-- The observable part of a login/logout `Response`. -/
structure AuthResp where
  status : Nat
  success : Bool
  setCookie : Option (List Char)
deriving DecidableEq

/-- `remember ? 30 * 86400 : 86400` (seconds). -/
def maxAgeOf (remember : Bool) : Nat := if remember then 30 * 86400 else 86400

/-- Decimal rendering of a number interpolated into a template string. -/
def natChars (n : Nat) : List Char := (Nat.repr n).data

/-- `admin.handleLogin`: on exact credential match, store
`session:<sid> ↦ "valid"` with `expirationTtl` the max-age and answer 200
with the session cookie; otherwise 401, untouched store, no cookie.  The
generated `crypto.randomUUID()` is passed in as `sid`. -/
def handleLogin (cfg : AuthConfig) (st : KVState) (req : LoginReq) (sid : List Char) :
    KVState × AuthResp :=
  if req.username = cfg.admin_username ∧ req.password = cfg.admin_password then
    (putKV st (sessionKey sid) ⟨str "valid", some (maxAgeOf req.remember)⟩,
     ⟨200, true,
      some (str "sessionId=" ++ sid ++ str "; HttpOnly; Secure; Path=/; Max-Age=" ++
        natChars (maxAgeOf req.remember))⟩)
  else
    (st, ⟨401, false, none⟩)

/-- Behaviour of the `delete` call issued during logout: it succeeds, or it
throws (caught by the surrounding `try`). -/
inductive DelBehavior where
  | ok
  | err
deriving DecidableEq

/-- The cookie-clearing header value emitted by logout. -/
def logoutClearCookie : List Char := str "sessionId=; HttpOnly; Secure; Path=/; Max-Age=0"

/-- `admin.handleLogout`: extract `sessionId` from the cookie header if
present; when a (truthy) identifier is found, delete `session:<sid>`; a
throwing delete is caught and answered with 500 and no `Set-Cookie`;
otherwise always 200 with the clearing cookie. -/
def handleLogout (st : KVState) (del : DelBehavior) (cookieHeader : Option (List Char)) :
    KVState × AuthResp :=
  match cookieHeader with
  | none => (st, ⟨200, true, some logoutClearCookie⟩)
  | some h =>
    match lookupCookie (parseCookiePairs h) (str "sessionId") with
    | none => (st, ⟨200, true, some logoutClearCookie⟩)
    | some sid =>
      if sid = [] then (st, ⟨200, true, some logoutClearCookie⟩)
      else
        match del with
        | DelBehavior.err => (st, ⟨500, false, none⟩)
        | DelBehavior.ok => (delKV st (sessionKey sid), ⟨200, true, some logoutClearCookie⟩)

/-! ## API gate and dispatch (`api.handleRequest`, `api.errorResponse`) -/

/-- JSON body of `api.errorResponse`: `{code: status, message: message}`. -/
structure ErrBody where
  code : Nat
  message : List Char
deriving DecidableEq

/-- Outcome of routing one API request: an immediate error response built by
the router, or the named entity handler that the router would invoke (every
handler performs its own relational/key-value store reads and writes). -/
inductive ApiResult where
  | err (status : Nat) (body : ErrBody)
  | handler (name : List Char)
deriving DecidableEq

/-- `api.errorResponse(message, status)`. -/
def errorResponse (message : List Char) (status : Nat) : ApiResult :=
  ApiResult.err status ⟨status, message⟩

/-- `const id = url.pathname.split('/').pop()` with `url.pathname`
equal to `"/api" ++ path`. -/
def lastSegment (s : List Char) : List Char :=
  (splitOnChar '/' s).getLastD []

/-- `/^\d+$/.test(id)`. -/
def isAllDigits (s : List Char) : Bool :=
  !s.isEmpty && s.all Char.isDigit

/-- The routing chain of `api.handleRequest` after the auth gate. -/
def dispatch (method path : List Char) : ApiResult :=
  let id := lastSegment (str "/api" ++ path)
  if path = str "/settings" then
    if method = str "GET" then ApiResult.handler (str "getSettings")
    else if method = str "POST" then ApiResult.handler (str "updateSettings")
    else errorResponse (str "Method Not Allowed") 405
  else if path = str "/catalogs" then
    if method = str "GET" then ApiResult.handler (str "getCatalogs")
    else if method = str "POST" then ApiResult.handler (str "createCatalog")
    else if method = str "PUT" then ApiResult.handler (str "updateCatalog")
    else if method = str "DELETE" then ApiResult.handler (str "deleteCatalog")
    else errorResponse (str "Method Not Allowed") 405
  else if path = str "/catalogs/reorder" ∧ method = str "POST" then
    ApiResult.handler (str "reorderCatalogs")
  else if path = str "/catalogs/migrate" ∧ method = str "POST" then
    ApiResult.handler (str "migrateCatalogs")
  else if matchToks (toks (str "/catalogs/\\d+/toggle_privacy")) path = true ∧
      method = str "PUT" then
    ApiResult.handler (str "toggleCatalogPrivacy")
  else if path = str "/config" then
    if method = str "GET" then ApiResult.handler (str "getConfig")
    else if method = str "POST" then ApiResult.handler (str "createConfig")
    else errorResponse (str "Method Not Allowed") 405
  else if path = str "/config/reorder" ∧ method = str "POST" then
    ApiResult.handler (str "reorderConfig")
  else if path = str "/config/all" ∧ method = str "DELETE" then
    ApiResult.handler (str "deleteAllConfigs")
  else if path = str "/config/submit" ∧ method = str "POST" then
    ApiResult.handler (str "submitConfig")
  else if path = str "/config/" ++ id ∧ isAllDigits id = true then
    if method = str "PUT" then ApiResult.handler (str "updateConfig")
    else if method = str "DELETE" then ApiResult.handler (str "deleteConfig")
    else errorResponse (str "Method Not Allowed") 405
  else if matchToks (toks (str "/config/\\d+/toggle_privacy")) path = true ∧
      method = str "PUT" then
    ApiResult.handler (str "toggleSitePrivacy")
  else if path = str "/pending/" ++ id ∧ isAllDigits id = true then
    if method = str "PUT" then ApiResult.handler (str "approvePendingConfig")
    else if method = str "DELETE" then ApiResult.handler (str "rejectPendingConfig")
    else errorResponse (str "Method Not Allowed") 405
  else if path = str "/config/import" ∧ method = str "POST" then
    ApiResult.handler (str "importConfig")
  else if path = str "/config/export" ∧ method = str "GET" then
    ApiResult.handler (str "exportConfig")
  else if path = str "/pending" ∧ method = str "GET" then
    ApiResult.handler (str "getPendingConfig")
  else if path = str "/private" ∧ method = str "GET" then
    ApiResult.handler (str "getPrivateConfig")
  else if path = str "/catalogs/export" ∧ method = str "GET" then
    ApiResult.handler (str "exportCategory")
  else if path = str "/catalogs/import" ∧ method = str "POST" then
    ApiResult.handler (str "importCategory")
  else errorResponse (str "Not Found") 404

/-- `api.handleRequest`: protected routes are gated on `admin.checkAuth`
before any dispatch; a failed check answers `errorResponse('Unauthorized',
401)` without reaching any handler. -/
def apiHandleRequest (get : List Char → KVRead) (cookieHeader : Option (List Char))
    (method path : List Char) : ApiResult :=
  if isProtectedRoute method path = true ∧ checkAuth get cookieHeader = false then
    errorResponse (str "Unauthorized") 401
  else dispatch method path

/-! ## Bookmark reorder endpoint (`api.reorderConfig`) -/

/-- One `UPDATE sites SET sort_order = ? WHERE id = ?` statement prepared by
`api.reorderConfig` (bound to the sort-order value and the site id). -/
structure UpdateStmt where
  sort_order : Nat
  id : Nat
deriving DecidableEq

/-- `orderedIds.map((id, index) => bind(index + 1, id))`, with `start` the
number of ids already consumed. -/
def mkStmts (start : Nat) : List Nat → List UpdateStmt
  | [] => []
  | id :: rest => ⟨start + 1, id⟩ :: mkStmts (start + 1) rest

/-- `api.reorderConfig`: a body whose `orderedIds` is not an array (`none`)
answers a 400 error with no statements; otherwise the whole statement list
is handed to `env.NAV_DB.batch` as one unit and the response is code 200. -/
def reorderConfig (orderedIds : Option (List Nat)) :
    Except ErrBody (List UpdateStmt × Nat) :=
  match orderedIds with
  | none => Except.error ⟨400, str "Invalid data format, expected an array of IDs."⟩
  | some ids => Except.ok (mkStmts 0 ids, 200)

/-! ## Cloud notes worker (`nav-kv/v1.0.1/worker.js`) -/

/-- Environment of the notes worker: `BB` is the admin password secret. -/
structure NotesEnv where
  BB : List Char

/-- State of the `AA` key-value namespace. -/
def NotesKV := List Char → Option (List Char)

/-- `env.AA.put(k, v)`. -/
def putNotesKV (st : NotesKV) (k v : List Char) : NotesKV :=
  fun k2 => if k2 = k then some v else st k2

/-- A parsed request to the notes worker: pathname, method, and the fields
the endpoints read (query parameters or JSON body fields); `password` is the
only credential-like field anywhere in the request. -/
structure NotesRequest where
  pathname : List Char
  method : List Char
  userId : List Char
  typeParam : List Char
  notes : List Char
  styles : List Char
  password : List Char

/-- Response body of the notes worker. -/
inductive NotesBody where
  | html
  | raw (s : List Char)
  | successTrue
  | valid (b : Bool)
  | notFound
deriving DecidableEq

structure NotesResp where
  status : Nat
  body : NotesBody
deriving DecidableEq

/-- The `fetch` dispatcher of the notes worker, returning the next store
state and the response.  `notes`/`styles` carry the serialized JSON text
that `JSON.stringify` would produce. -/
def notesFetch (env : NotesEnv) (st : NotesKV) (req : NotesRequest) :
    NotesKV × NotesResp :=
  if req.pathname = str "/" ∨ req.pathname = str "/admin" then
    (st, ⟨200, NotesBody.html⟩)
  else if req.pathname = str "/api/getNotes" then
    (st, ⟨200, NotesBody.raw ((st req.userId).getD (str "[]"))⟩)
  else if req.pathname = str "/api/saveNotes" ∧ req.method = str "POST" then
    (putNotesKV st req.userId req.notes, ⟨200, NotesBody.successTrue⟩)
  else if req.pathname = str "/api/verifyPassword" ∧ req.method = str "POST" then
    (st, ⟨if req.password == env.BB then 200 else 403,
          NotesBody.valid (req.password == env.BB)⟩)
  else if req.pathname = str "/api/getStyles" then
    (st, ⟨200, NotesBody.raw
      ((st (req.userId ++ str "_" ++ req.typeParam)).getD (str "\x7b\x7d"))⟩)
  else if req.pathname = str "/api/saveStyles" ∧ req.method = str "POST" then
    (putNotesKV st (req.userId ++ str "_" ++ req.typeParam) req.styles,
     ⟨200, NotesBody.successTrue⟩)
  else
    (st, ⟨404, NotesBody.notFound⟩)

/-! ## Claim theorems -/

/-- C1: the route matcher classifies a request as protected iff some entry
of the protected-route list has an equal method and a path pattern matched
in full (anchored at both ends); a `\d+` placeholder matches one or more
ASCII digits only (so it never crosses a `/`); `/config/42` matches the
`PUT /config/\d+` pattern, `/config/abc` does not, and
`/config/42/toggle_privacy` matches only the toggle pattern; `GET /config`
is public. -/
theorem C1_protected_route_classification :
    (∀ method path : List Char,
        isProtectedRoute method path = true ↔
          ∃ route ∈ protectedRoutes, RouteMatches route method path)
    ∧ (∀ path : List Char,
        matchToks (toks (str "/config/\\d+")) path = true ↔
          ∃ ds, ds ≠ [] ∧ (∀ c ∈ ds, c.isDigit = true) ∧ path = str "/config/" ++ ds)
    ∧ isProtectedRoute (str "PUT") (str "/config/42") = true
    ∧ isProtectedRoute (str "PUT") (str "/config/abc") = false
    ∧ isProtectedRoute (str "PUT") (str "/config/42/toggle_privacy") = true
    ∧ matchToks (toks (str "/config/\\d+")) (str "/config/42/toggle_privacy") = false
    ∧ matchToks (toks (str "/config/\\d+/toggle_privacy"))
        (str "/config/42/toggle_privacy") = true
    ∧ isProtectedRoute (str "GET") (str "/config") = false := by
  refine ⟨?_, ?_, by decide, by decide, by decide, by decide, by decide, by decide⟩
  · intro method path
    simp only [isProtectedRoute, List.any_eq_true]
    exact exists_congr fun r => and_congr_right fun _ => routeIsMatch_iff
  · intro path
    have hts : toks (str "/config/\\d+") = (str "/config/").map Tok.lit ++ [Tok.digits] := by
      decide
    rw [hts, matchToks_iff]
    exact tokMatch_lits_digits _ path

/-- C2: `admin.checkAuth` is total (it returns a boolean for every header
and every read behaviour of the store, a thrown read being caught) and
returns `true` exactly when a cookie header is present, it yields a
(nonempty) `sessionId` cookie, and the store read of `session:<sid>`
returns exactly `"valid"`; in particular a missing header denies. -/
theorem C2_checkAuth_characterization :
    (∀ (get : List Char → KVRead) (hdr : Option (List Char)),
        checkAuth get hdr = true ↔
          ∃ h sid, hdr = some h ∧
            lookupCookie (parseCookiePairs h) (str "sessionId") = some sid ∧
            sid ≠ [] ∧
            get (str "session:" ++ sid) = KVRead.ok (some (str "valid")))
    ∧ (∀ get, checkAuth get none = false) := by
  refine ⟨?_, fun get => rfl⟩
  intro get hdr
  cases hdr with
  | none => simp [checkAuth]
  | some h =>
    cases hl : lookupCookie (parseCookiePairs h) (str "sessionId") with
    | none => simp [checkAuth, hl]
    | some sid =>
      by_cases hsid : sid = []
      · subst hsid
        simp [checkAuth, hl]
      · cases hg : get (str "session:" ++ sid) with
        | err => simp [checkAuth, hl, hsid, hg]
        | ok v => simp [checkAuth, hl, hsid, hg]

/-- C3: login with both credentials exactly equal to the configured secrets
stores `session:<sid> ↦ "valid"` with TTL 2592000 s when `remember` is true
and 86400 s otherwise, and answers 200 with the
`sessionId=<sid>; HttpOnly; Secure; Path=/; Max-Age=<ttl>` cookie. -/
theorem C3_login_success (cfg : AuthConfig) (st : KVState) (req : LoginReq)
    (sid : List Char) (hu : req.username = cfg.admin_username)
    (hp : req.password = cfg.admin_password) :
    (handleLogin cfg st req sid).1 (sessionKey sid) =
        some ⟨str "valid", some (maxAgeOf req.remember)⟩
    ∧ (handleLogin cfg st req sid).2.status = 200
    ∧ (handleLogin cfg st req sid).2.setCookie =
        some (str "sessionId=" ++ sid ++ str "; HttpOnly; Secure; Path=/; Max-Age=" ++
          natChars (maxAgeOf req.remember))
    ∧ maxAgeOf true = 2592000 ∧ maxAgeOf false = 86400 := by
  refine ⟨?_, ?_, ?_, rfl, rfl⟩ <;> simp [handleLogin, hu, hp, putKV]

theorem C3_login_success_witness :
    (handleLogin ⟨str "u", str "p"⟩ (fun _ => none) ⟨str "u", str "p", true⟩
        (str "s1")).1 (sessionKey (str "s1")) =
      some ⟨str "valid", some (maxAgeOf true)⟩
    ∧ (handleLogin ⟨str "u", str "p"⟩ (fun _ => none) ⟨str "u", str "p", true⟩
        (str "s1")).2.status = 200
    ∧ (handleLogin ⟨str "u", str "p"⟩ (fun _ => none) ⟨str "u", str "p", true⟩
        (str "s1")).2.setCookie =
      some (str "sessionId=" ++ str "s1" ++ str "; HttpOnly; Secure; Path=/; Max-Age=" ++
        natChars (maxAgeOf true))
    ∧ maxAgeOf true = 2592000 ∧ maxAgeOf false = 86400 :=
  C3_login_success ⟨str "u", str "p"⟩ (fun _ => none) ⟨str "u", str "p", true⟩
    (str "s1") rfl rfl

/-- C7: login with a username or password differing from the configured
secrets answers 401 and leaves the store untouched (no session entry). -/
theorem C7_login_failure (cfg : AuthConfig) (st : KVState) (req : LoginReq)
    (sid : List Char)
    (h : ¬(req.username = cfg.admin_username ∧ req.password = cfg.admin_password)) :
    handleLogin cfg st req sid = (st, ⟨401, false, none⟩) := by
  simp [handleLogin, h]

theorem C7_login_failure_witness :
    handleLogin ⟨str "u", str "p"⟩ (fun _ => none) ⟨str "u", str "bad", false⟩
        (str "s1") = ((fun _ => none : KVState), ⟨401, false, none⟩) :=
  C7_login_failure ⟨str "u", str "p"⟩ (fun _ => none) ⟨str "u", str "bad", false⟩
    (str "s1") (by decide)

/-- C4 counterexample: when the store's `delete` call throws during logout
(with a cookie carrying a session identifier), the `catch` branch answers
status 500 with *no* `Set-Cookie` header, refuting "for every behavior of
the underlying store, the response has a success status and carries the
cookie-clearing header". -/
theorem C4_counterexample :
    (handleLogout (fun _ => none) DelBehavior.err (some (str "sessionId=abc"))).2 =
      ⟨500, false, none⟩ := by
  decide

/-- C4 (amended): for every logout request in which the store delete call
does not throw — deleting a nonexistent key is not a failure — the response
has status 200, success, and carries the cookie-clearing header
`sessionId=; HttpOnly; Secure; Path=/; Max-Age=0`; moreover when no cookie
header is present no delete is attempted, so even a throwing store cannot
prevent the success response. -/
theorem C4_logout_always_clears :
    (∀ (st : KVState) (hdr : Option (List Char)),
        (handleLogout st DelBehavior.ok hdr).2 = ⟨200, true, some logoutClearCookie⟩)
    ∧ (∀ st : KVState,
        (handleLogout st DelBehavior.err none).2 = ⟨200, true, some logoutClearCookie⟩) := by
  refine ⟨?_, fun st => rfl⟩
  intro st hdr
  cases hdr with
  | none => rfl
  | some h =>
    cases hl : lookupCookie (parseCookiePairs h) (str "sessionId") with
    | none => simp [handleLogout, hl]
    | some sid =>
      by_cases hsid : sid = []
      · subst hsid; simp [handleLogout, hl]
      · simp [handleLogout, hl, hsid]

/-- C5: logging out with a cookie carrying session identifier `sid` deletes
`session:<sid>` and a subsequent auth check with the same cookie denies;
the login transition only ever writes `"valid"` entries, and the logout
transition only ever removes entries (per key, a state is either absent or
`"valid"`-with-TTL after these transitions). -/
theorem C5_logout_invalidates :
    (∀ (st : KVState) (h sid : List Char),
        lookupCookie (parseCookiePairs h) (str "sessionId") = some sid → sid ≠ [] →
        ((handleLogout st DelBehavior.ok (some h)).1 (sessionKey sid) = none ∧
         checkAuth (getOf (handleLogout st DelBehavior.ok (some h)).1) (some h) = false))
    ∧ (∀ (cfg : AuthConfig) (st : KVState) (req : LoginReq) (sid k : List Char),
        (handleLogin cfg st req sid).1 k = st k ∨
        (handleLogin cfg st req sid).1 k =
          some ⟨str "valid", some (maxAgeOf req.remember)⟩)
    ∧ (∀ (st : KVState) (del : DelBehavior) (hdr : Option (List Char)) (k : List Char),
        (handleLogout st del hdr).1 k = st k ∨ (handleLogout st del hdr).1 k = none) := by
  refine ⟨?_, ?_, ?_⟩
  · intro st h sid hl hsid
    have hst : (handleLogout st DelBehavior.ok (some h)).1 = delKV st (sessionKey sid) := by
      simp [handleLogout, hl, hsid]
    constructor
    · rw [hst]; simp [delKV]
    · rw [hst]
      simp only [checkAuth, hl, hsid, if_neg hsid]
      have : getOf (delKV st (sessionKey sid)) (str "session:" ++ sid) = KVRead.ok none := by
        simp [getOf, delKV, sessionKey]
      rw [this]
      decide
  · intro cfg st req sid k
    by_cases hc : req.username = cfg.admin_username ∧ req.password = cfg.admin_password
    · by_cases hk : k = sessionKey sid
      · right; simp [handleLogin, hc, putKV, hk]
      · left; simp [handleLogin, hc, putKV, hk]
    · left; simp [handleLogin, hc]
  · intro st del hdr k
    cases hdr with
    | none => left; rfl
    | some h =>
      cases hl : lookupCookie (parseCookiePairs h) (str "sessionId") with
      | none => left; simp [handleLogout, hl]
      | some sid =>
        by_cases hsid : sid = []
        · left; subst hsid; simp [handleLogout, hl]
        · cases del with
          | err => left; simp [handleLogout, hl, hsid]
          | ok =>
            by_cases hk : k = sessionKey sid
            · right; simp [handleLogout, hl, hsid, delKV, hk]
            · left; simp [handleLogout, hl, hsid, delKV, hk]

theorem C5_logout_invalidates_witness :
    ((handleLogout (fun _ => some ⟨str "valid", none⟩) DelBehavior.ok
        (some (str "sessionId=abc"))).1 (sessionKey (str "abc")) = none ∧
     checkAuth
       (getOf (handleLogout (fun _ => some ⟨str "valid", none⟩) DelBehavior.ok
          (some (str "sessionId=abc"))).1)
       (some (str "sessionId=abc")) = false) :=
  C5_logout_invalidates.1 (fun _ => some ⟨str "valid", none⟩) (str "sessionId=abc")
    (str "abc") (by decide) (by decide)

/-- Splitting at a separator: a separator-free prefix becomes the first
piece and splitting continues after the separator. -/
theorem splitOnChar_append_sep (sep : Char) (pre rest : List Char)
    (hpre : sep ∉ pre) :
    splitOnChar sep (pre ++ sep :: rest) = pre :: splitOnChar sep rest := by
  induction pre with
  | nil => simp [splitOnChar]
  | cons c cs ih =>
    have hc : ¬ c = sep := fun e => hpre (e ▸ List.mem_cons_self c cs)
    have hcs : sep ∉ cs := fun hmem => hpre (List.mem_cons_of_mem _ hmem)
    simp [splitOnChar, hc, ih hcs]

/-- C6 counterexample: for the cookie header `sessionId=abc=def` the code
extracts `abc` — the segment between the first and second `=` — not the
claimed entire remainder `abc=def` after the first `=`. -/
theorem C6_counterexample :
    lookupCookie (parseCookiePairs (str "sessionId=abc=def")) (str "sessionId") =
      some (str "abc")
    ∧ str "abc" ≠ str "abc=def" := by
  decide

/-- C6 (amended): each cookie pair is split at *every* `=` and the
destructuring keeps elements 0 and 1, so for a pair whose value itself
contains an `=` the extracted value is the substring strictly between the
first and the second `=` (everything from the second `=` on is discarded),
not the entire remainder after the first `=`. -/
theorem C6_cookie_value_truncated (key v1 v2 : List Char)
    (hk : ('=' : Char) ∉ key) (hv : ('=' : Char) ∉ v1)
    (htrim : trimChars (key ++ '=' :: (v1 ++ '=' :: v2)) =
      key ++ '=' :: (v1 ++ '=' :: v2)) :
    splitPair (key ++ '=' :: (v1 ++ '=' :: v2)) = (key, some v1) := by
  unfold splitPair
  rw [htrim, splitOnChar_append_sep _ _ _ hk, splitOnChar_append_sep _ _ _ hv]

theorem C6_cookie_value_truncated_witness :
    splitPair (str "sessionId" ++ '=' :: (str "abc" ++ '=' :: str "def")) =
      (str "sessionId", some (str "abc")) :=
  C6_cookie_value_truncated (str "sessionId") (str "abc") (str "def")
    (by decide) (by decide) (by decide)

/-- C8: a request to a protected API route that fails the auth check — in
particular one carrying no `Cookie` header — is answered
`errorResponse('Unauthorized', 401)` (status 401, JSON `code` 401, message
`Unauthorized`) by the gate itself; the dispatcher never reaches any entity
handler, so none of the CRUD handlers' store reads or writes happen. -/
theorem C8_unauthorized_before_handlers :
    (∀ (get : List Char → KVRead) (hdr : Option (List Char)) (method path : List Char),
        isProtectedRoute method path = true → checkAuth get hdr = false →
        apiHandleRequest get hdr method path = ApiResult.err 401 ⟨401, str "Unauthorized"⟩)
    ∧ (∀ (get : List Char → KVRead) (method path : List Char),
        isProtectedRoute method path = true →
        apiHandleRequest get none method path = ApiResult.err 401 ⟨401, str "Unauthorized"⟩)
    ∧ (∀ (get : List Char → KVRead) (hdr : Option (List Char)) (method path name : List Char),
        isProtectedRoute method path = true → checkAuth get hdr = false →
        apiHandleRequest get hdr method path ≠ ApiResult.handler name) := by
  have base : ∀ (get : List Char → KVRead) (hdr : Option (List Char)) (method path : List Char),
      isProtectedRoute method path = true → checkAuth get hdr = false →
      apiHandleRequest get hdr method path = ApiResult.err 401 ⟨401, str "Unauthorized"⟩ := by
    intro get hdr method path hprot hauth
    simp [apiHandleRequest, hprot, hauth, errorResponse]
  refine ⟨base, ?_, ?_⟩
  · intro get method path hprot
    exact base get none method path hprot rfl
  · intro get hdr method path name hprot hauth
    rw [base get hdr method path hprot hauth]
    intro hcontra
    exact ApiResult.noConfusion hcontra

theorem C8_unauthorized_before_handlers_witness :
    apiHandleRequest (fun _ => KVRead.ok none) none (str "POST") (str "/settings") =
      ApiResult.err 401 ⟨401, str "Unauthorized"⟩ :=
  C8_unauthorized_before_handlers.1 (fun _ => KVRead.ok none) none
    (str "POST") (str "/settings") (by decide) (by decide)

/-- Index characterization of the update statements built by the reorder
endpoint. -/
theorem mkStmts_getElem (start : Nat) (ids : List Nat) (i : Nat) :
    (mkStmts start ids)[i]? =
      (ids[i]?).map fun id => (⟨start + i + 1, id⟩ : UpdateStmt) := by
  induction ids generalizing start i with
  | nil => simp [mkStmts]
  | cons id rest ih =>
    cases i with
    | zero => simp [mkStmts]
    | succ n =>
      have := ih (start + 1) n
      simp only [mkStmts, List.getElem?_cons_succ, this]
      have harith : start + 1 + n + 1 = start + (n + 1) + 1 := by omega
      rw [harith]

/-- C9: for a JSON body whose `orderedIds` is an array, the reorder endpoint
produces, as one batch, exactly one `UPDATE sites SET sort_order = ? WHERE
id = ?` statement per listed id whose bound sort order is the id's 1-based
position (index + 1), and responds with code 200; a non-array `orderedIds`
yields a 400 error and no statements at all. -/
theorem C9_reorder_positions :
    (∀ ids : List Nat, reorderConfig (some ids) = Except.ok (mkStmts 0 ids, 200))
    ∧ (∀ (ids : List Nat) (i : Nat),
        (mkStmts 0 ids)[i]? = (ids[i]?).map fun id => (⟨i + 1, id⟩ : UpdateStmt))
    ∧ reorderConfig none =
        Except.error ⟨400, str "Invalid data format, expected an array of IDs."⟩ := by
  refine ⟨fun ids => rfl, ?_, rfl⟩
  intro ids i
  have := mkStmts_getElem 0 ids i
  simpa using this

/-- C10: in the notes worker, the outcome of every endpoint other than
`/api/verifyPassword` — in particular `/api/getNotes`, `/api/saveNotes` and
`/api/saveStyles` — is identical for two requests differing only in the
submitted password (no session, cookie or password check of any kind);
`/api/saveNotes` writes the caller-supplied `userId` key unconditionally;
and `/api/verifyPassword` itself answers valid iff the submitted password
equals the secret `BB` while performing no store write, gating nothing. -/
theorem C10_notes_no_auth :
    (∀ (env : NotesEnv) (st : NotesKV) (req : NotesRequest) (p' : List Char),
        req.pathname ≠ str "/api/verifyPassword" →
        notesFetch env st { req with password := p' } = notesFetch env st req)
    ∧ (∀ (env : NotesEnv) (st : NotesKV) (req : NotesRequest),
        req.pathname = str "/api/saveNotes" → req.method = str "POST" →
        (notesFetch env st req).1 = putNotesKV st req.userId req.notes)
    ∧ (∀ (env : NotesEnv) (st : NotesKV) (req : NotesRequest),
        req.pathname = str "/api/saveStyles" → req.method = str "POST" →
        (notesFetch env st req).1 =
          putNotesKV st (req.userId ++ str "_" ++ req.typeParam) req.styles)
    ∧ (∀ (env : NotesEnv) (st : NotesKV) (req : NotesRequest),
        req.pathname = str "/api/getNotes" →
        notesFetch env st req = (st, ⟨200, NotesBody.raw ((st req.userId).getD (str "[]"))⟩))
    ∧ (∀ (env : NotesEnv) (st : NotesKV) (req : NotesRequest),
        req.pathname = str "/api/verifyPassword" → req.method = str "POST" →
        notesFetch env st req =
          (st, ⟨if req.password == env.BB then 200 else 403,
                NotesBody.valid (req.password == env.BB)⟩)) := by
  refine ⟨?_, ?_, ?_, ?_, ?_⟩
  · intro env st req p' hvp
    unfold notesFetch
    split_ifs with h1 h2 h3 h4 h5 h6 <;> first | rfl | exact absurd h4.1 hvp
  · intro env st req hpath hmeth
    have h1 : ¬(str "/api/saveNotes" = str "/" ∨ str "/api/saveNotes" = str "/admin") := by
      decide
    have h2 : str "/api/saveNotes" ≠ str "/api/getNotes" := by decide
    simp [notesFetch, hpath, hmeth, h1, h2]
  · intro env st req hpath hmeth
    have h1 : ¬(str "/api/saveStyles" = str "/" ∨ str "/api/saveStyles" = str "/admin") := by
      decide
    have h2 : str "/api/saveStyles" ≠ str "/api/getNotes" := by decide
    have h3 : str "/api/saveStyles" ≠ str "/api/saveNotes" := by decide
    have h4 : str "/api/saveStyles" ≠ str "/api/verifyPassword" := by decide
    have h5 : str "/api/saveStyles" ≠ str "/api/getStyles" := by decide
    simp [notesFetch, hpath, hmeth, h1, h2, h3, h4, h5]
  · intro env st req hpath
    have h1 : ¬(str "/api/getNotes" = str "/" ∨ str "/api/getNotes" = str "/admin") := by
      decide
    simp [notesFetch, hpath, h1]
  · intro env st req hpath hmeth
    have h1 : ¬(str "/api/verifyPassword" = str "/" ∨
        str "/api/verifyPassword" = str "/admin") := by decide
    have h2 : str "/api/verifyPassword" ≠ str "/api/getNotes" := by decide
    have h3 : str "/api/verifyPassword" ≠ str "/api/saveNotes" := by decide
    simp [notesFetch, hpath, hmeth, h1, h2, h3]

theorem C10_notes_no_auth_witness :
    notesFetch ⟨str "pw"⟩ (fun _ => none)
      { pathname := str "/api/getNotes", method := str "GET", userId := str "u",
        typeParam := str "t", notes := str "n", styles := str "s",
        password := str "wrong" } =
    notesFetch ⟨str "pw"⟩ (fun _ => none)
      { pathname := str "/api/getNotes", method := str "GET", userId := str "u",
        typeParam := str "t", notes := str "n", styles := str "s",
        password := str "pw" } :=
  C10_notes_no_auth.1 ⟨str "pw"⟩ (fun _ => none)
    { pathname := str "/api/getNotes", method := str "GET", userId := str "u",
      typeParam := str "t", notes := str "n", styles := str "s",
      password := str "pw" } (str "wrong") (by decide)

end AkiNav
